import Mathlib

/-!
Verification development for the erfiume_bot repository.

Shallow embedding of the core logic of `src/app/erfiume`:
  * `apis.py` — the `Stazione` / `Valore` data model and the `enrich_data`
    pipeline that folds each station's fetched time series into its latest
    reading;
  * `storage.py` — the conditional station upsert `check_and_update_stazioni`
    and the per-identity throttle `check_throttled_user`, modelled over an
    explicit key-value store state;
  * `tgbot.py` — the fuzzy station-name resolver `fuzz_search_station`.

Python floats are modelled as rationals (ℚ): every numeric literal involved
in the verified control flow (`-9999.0`, thresholds, readings) is exactly
representable, and the comparisons used by the code coincide on such values.
Python ints are modelled as ℤ (ints are unbounded in Python), counters as ℕ.
Exceptions are modelled with `Except String`.
-/

namespace Erfiume

/-- Constant `UNKNOWN_VALUE = -9999.0` from `apis.py` (and duplicated in `storage.py`). -/
def UNKNOWN_VALUE : ℚ := -9999

/-- The `Stazione` dataclass from `apis.py`, after `__post_init__` has run:
`value` is a plain number (the constructor coalesces `None` to the sentinel,
see `postInitValue`). -/
structure Stazione where
  timestamp : ℤ
  idstazione : String
  ordinamento : ℤ
  nomestaz : String
  lon : String
  lat : String
  soglia1 : ℚ
  soglia2 : ℚ
  soglia3 : ℚ
  value : ℚ
deriving Repr, DecidableEq

/-- Source `Stazione.__post_init__`: `self.value = self.value or UNKNOWN_VALUE`.
Python `or` replaces every falsy left operand, so both `None` and `0.0`
become `UNKNOWN_VALUE`. -/
def postInitValue (value : Option ℚ) : ℚ :=
  match value with
  | none => UNKNOWN_VALUE
  | some x => if x = 0 then UNKNOWN_VALUE else x

/-- Constructing a `Stazione` through the dataclass constructor, which runs
`__post_init__` on the `value` field. -/
def mkStazione (timestamp : ℤ) (idstazione : String) (ordinamento : ℤ)
    (nomestaz lon lat : String) (soglia1 soglia2 soglia3 : ℚ)
    (value : Option ℚ) : Stazione :=
  { timestamp := timestamp, idstazione := idstazione, ordinamento := ordinamento,
    nomestaz := nomestaz, lon := lon, lat := lat,
    soglia1 := soglia1, soglia2 := soglia2, soglia3 := soglia3,
    value := postInitValue value }

/-- The `Valore` dataclass from `apis.py`: one `(t, v)` reading of a station's
time series. -/
structure Valore where
  t : ℤ
  v : ℚ
deriving Repr, DecidableEq

/-- Python's built-in `max(dati, key=lambda x: x.t)`: scans the list keeping
the first element whose key is maximal (a later element replaces the current
best only when its key is strictly larger), and on an empty list there is no
result (Python raises `ValueError`). `maxStep` is the per-element
comparison: the next element replaces the current best only when its key is
strictly larger. -/
def maxStep (best y : Valore) : Valore := if y.t > best.t then y else best

/-- See `maxStep`: Python's `max(dati, key=lambda x: x.t)`, `none` on `[]`. -/
def pythonMaxByT : List Valore → Option Valore
  | [] => none
  | x :: xs => some (xs.foldl maxStep x)

/-- Outcome of one `fetch_time_series` task as observed by `enrich_data`
through `asyncio.gather(*tasks, return_exceptions=True)`: either the fetched
list of readings, or a captured exception. -/
inductive FetchOutcome where
  | ok (dati : List Valore)
  | exc
deriving Repr, DecidableEq

/-- The per-station body of the loop in `enrich_data` (`apis.py`):
a captured exception is logged and the station is left unchanged; otherwise
`max(dati, key=lambda x: x.t)` is taken — which raises `ValueError` on an
empty list — and the station's `value`/`timestamp` are overwritten with the
maximal reading's fields. -/
def enrichStation (s : Stazione) (r : FetchOutcome) : Except String Stazione :=
  match r with
  | FetchOutcome.exc => Except.ok s
  | FetchOutcome.ok dati =>
    match pythonMaxByT dati with
    | none => Except.error "ValueError: max() arg is an empty sequence"
    | some m => Except.ok { s with value := m.v, timestamp := m.t }

/-- Source `enrich_data` (`apis.py`): zips the stations with their gathered fetch
outcomes and runs the loop body on each pair in order; an uncaught exception
from the body aborts the whole call. -/
def enrich_data : List (Stazione × FetchOutcome) → Except String (List Stazione)
  | [] => Except.ok []
  | (s, r) :: rest =>
    match enrichStation s r with
    | Except.error e => Except.error e
    | Except.ok s' =>
      match enrich_data rest with
      | Except.error e => Except.error e
      | Except.ok out => Except.ok (s' :: out)

/-! Storage layer (`storage.py`), modelled over an explicit table state. -/

/-- One stored DynamoDB item for the `Stazioni` table (keyed by `nomestaz`,
which is kept as the map key, not repeated here). DynamoDB items are flat
attribute maps with no schema, and `update_item` with `SET` creates an item
holding only the touched attributes, so every attribute is optional. -/
structure StoredRecord where
  timestamp : Option ℤ
  idstazione : Option String
  ordinamento : Option ℤ
  lon : Option String
  lat : Option String
  soglia1 : Option ℚ
  soglia2 : Option ℚ
  soglia3 : Option ℚ
  value : Option ℚ
deriving Repr, DecidableEq

/-- The `Stazioni` table: station name (`nomestaz`) to stored item. -/
def Store : Type := String → Option StoredRecord

/-- Source `Stazione.to_dict` (`apis.py`): the full flat item written by `put_item`
(`Decimal(str(x))` is the identity on our exact rationals; the `nomestaz`
attribute is the key). -/
def Stazione.to_record (s : Stazione) : StoredRecord :=
  { timestamp := some s.timestamp, idstazione := some s.idstazione,
    ordinamento := some s.ordinamento, lon := some s.lon, lat := some s.lat,
    soglia1 := some s.soglia1, soglia2 := some s.soglia2,
    soglia3 := some s.soglia3, value := some s.value }

/-- Source `AsyncDynamoDB.check_and_update_stazioni` (`storage.py`), as a function
from table state to table state.

Traced from the source:
  * `get_item` with `ProjectionExpression="timestamp"` returns an `Item`
    exactly when the key exists, holding only the `timestamp` attribute when
    the stored item has one;
  * `latest_timestamp = int(Item.get("timestamp")) if "Item" in response
    else 0` — when the item exists but has no `timestamp` attribute this is
    `int(None)`, a `TypeError` (re-raised by the bare `except Exception`);
  * when `station.timestamp > latest_timestamp`, `update_item` SETs only the
    `timestamp` and `value` attributes (creating the item, with just those
    attributes, when the key was absent);
  * otherwise `elif not response["Item"]` — when the key was absent this is a
    `KeyError` (re-raised), so the `put_item` branch under it is unreachable;
    when the item exists its projection is non-empty, so this is a no-op. -/
def check_and_update_stazioni (store : Store) (station : Stazione) :
    Except String Store :=
  match store station.nomestaz with
  | some rec =>
    match rec.timestamp with
    | none => Except.error "TypeError: int() argument cannot be None"
    | some latest_timestamp =>
      if station.timestamp > latest_timestamp then
        Except.ok (fun n =>
          if n = station.nomestaz then
            some { rec with timestamp := some station.timestamp,
                            value := some station.value }
          else store n)
      else
        Except.ok store
  | none =>
    if station.timestamp > 0 then
      Except.ok (fun n =>
        if n = station.nomestaz then
          some { timestamp := some station.timestamp, idstazione := none,
                 ordinamento := none, lon := none, lat := none,
                 soglia1 := none, soglia2 := none, soglia3 := none,
                 value := some station.value }
        else store n)
    else
      Except.error "KeyError: Item"

/-! Throttle gate (`storage.py`). -/

/-- Constant `THROTTLING_THRESHOLD = 5` from `storage.py`. -/
def THROTTLING_THRESHOLD : ℕ := 5

/-- Constant `THROTTLING_TIME = 15` (minutes) from `storage.py`. -/
def THROTTLING_TIME : ℤ := 15

/-- One stored item of the throttle table for an identity: its request
`count` and its cool-down expiry `ttl` (absolute epoch seconds). -/
structure ThrottleEntry where
  count : ℕ
  ttl : ℤ
deriving Repr, DecidableEq

/-- Source `AsyncDynamoDB.check_throttled_user` (`storage.py`) for one identity,
whose table entry is `entry` and where the call happens at wall-clock time
`now` (epoch seconds). Returns the updated entry and the wait time.

Traced from the source: `now_with_wait_time = now + 15 minutes`; a missing
item is created with `count = 1`; an existing item with
`count > THROTTLING_THRESHOLD` only has its `ttl` refreshed and the call
returns the remaining wait `stored ttl - now` (the count is not incremented);
otherwise the count is incremented by 1, the `ttl` refreshed, and the call
returns 0. -/
def check_throttled_user (entry : Option ThrottleEntry) (now : ℤ) :
    ThrottleEntry × ℤ :=
  let now_with_wait_time : ℤ := now + 60 * THROTTLING_TIME
  match entry with
  | none => (⟨1, now_with_wait_time⟩, 0)
  | some e =>
    if e.count > THROTTLING_THRESHOLD then
      (⟨e.count, now_with_wait_time⟩, e.ttl - now)
    else
      (⟨e.count + 1, now_with_wait_time⟩, 0)

/-- A sequence of calls to `check_throttled_user` for one identity, at the
given wall-clock times; returns the final table entry and the list of wait
times returned to the caller, in call order. -/
def runThrottle (entry : Option ThrottleEntry) :
    List ℤ → Option ThrottleEntry × List ℤ
  | [] => (entry, [])
  | now :: rest =>
    let step := check_throttled_user entry now
    let next := runThrottle (some step.1) rest
    (next.1, step.2 :: next.2)

/-! Fuzzy resolver (`tgbot.py`). -/

/-- Constant `FUZZ_SCORE_CUTOFF = 80` from `tgbot.py`. -/
def FUZZ_SCORE_CUTOFF : Nat := 80

/-- The `KNOWN_STATIONS` literal from `apis.py`, in source order (before the
module-level `KNOWN_STATIONS.sort()` call). -/
def KNOWN_STATIONS_source : List String := [
    "S. Zeno",
    "Spessa Po",
    "Parma S. Siro",
    "Mercato Saraceno",
    "Fiorenzuola d\x27Arda",
    "Fiscaglia Monte",
    "Navicello",
    "Camposanto",
    "Fidenza SIAP",
    "Codigoro",
    "Casoni",
    "Ponte Ronca",
    "Gallo",
    "Castenaso",
    "Correcchio Sillaro",
    "Beccara Nuova Reno",
    "Salsominore",
    "Vigoleno",
    "Lonza",
    "Morciano di Romagna",
    "Pievepelago idro",
    "Casse Espansione Enza monte",
    "S. Secondo",
    "Cassa Crostolo SIAP",
    "Tornolo",
    "Parma Ovest",
    "Rasponi",
    "Castel San Pietro",
    "Ponte dell\x27Olio",
    "Arcoveggio",
    "S. Sofia",
    "Lugo SIAP",
    "Pieve Cesato",
    "Cardinala Idice",
    "Ciriano",
    "Fossalta",
    "Fiorano",
    "Puianello",
    "Borgo Visignolo",
    "Cusercoli Idro",
    "Colorno AIPO",
    "Ficarolo",
    "Fusignano",
    "Foscaglia Panaro",
    "Teodorano",
    "Ponte Sant\x27Ambrogio",
    "Saletto",
    "Ponte Val di Sasso",
    "Case Bonini",
    "Capoponte",
    "Ponte Valenza Po",
    "Secondo Salto",
    "Ponte Vico",
    "Sermide",
    "Ponte Verucchio",
    "Battiferro Bypass",
    "Calcara",
    "Casalmaggiore",
    "Diga di Ridracoli",
    "Pontelagoscuro",
    "Fiscaglia Valle",
    "Molato Diga Monte",
    "S. Antonio",
    "Ponte Lamberti",
    "Linaro",
    "Montanaro",
    "Lugo",
    "Cremona",
    "Forcelli",
    "S. Agata",
    "Modena Naviglio",
    "Casalecchio canale",
    "Ponte Samone",
    "Bagnetto Reno",
    "Ponte Alto",
    "Ponte Messa",
    "Dosso",
    "Loiano Ponte Savena",
    "S. Carlo",
    "Ponte Braldo",
    "Vergato",
    "Mordano",
    "Castiglione",
    "Pracchia",
    "Ponte Becca Po",
    "Ongina",
    "Rivergaro",
    "Vignola SIAP",
    "S. Zaccaria",
    "Alseno",
    "Ramiola",
    "Savignano",
    "Strada Casale",
    "Rocca San Casciano",
    "S. Marco",
    "Bobbio",
    "Casola Valsenio",
    "Fornovo SIAP",
    "Pioppa",
    "Chiavicone Idice",
    "Ponte Veggia",
    "La Dozza",
    "Fanano",
    "Cadelbosco",
    "Sostegno Reno",
    "S. Bartolo",
    "Correcchio canale",
    "Canonica Valle",
    "Mezzano",
    "Saliceto",
    "Ponte Nibbiano",
    "Gandazzolo Reno",
    "S. Ruffillo Savena",
    "Farini",
    "Ostia Parmense",
    "Bova",
    "Palesio",
    "Modigliana",
    "Paltrone Samoggia",
    "Ponte Cavola",
    "Rimini Ausa",
    "Ponte Bacchello",
    "Sesto Imolese",
    "Pontenure",
    "Chiavica Bastia Sillaro",
    "Silla",
    "Ongina Po",
    "Sorbolo",
    "Isola S.Antonio PO",
    "Chiavicone Reno",
    "Parma Ponte Nuovo",
    "Rossenna",
    "Castellina di Soragna",
    "Pontelagoscuro idrometro Boicelli",
    "S. Vittoria",
    "Sarna",
    "Casale Monferrato Po",
    "Imola",
    "Mignano Diga",
    "Polesella SIAP",
    "Vetto",
    "Borello",
    "Ponte Calanca",
    "Rivalta RE",
    "Opera Reno Panfilia",
    "Tebano",
    "Parma cassa invaso CAE",
    "Bazzano",
    "Alfonsine",
    "Forli\x27",
    "Casalecchio tiro a volo",
    "Matellica",
    "Pianoro",
    "Porretta Terme",
    "Selvanizza",
    "Compiano",
    "Corniglio",
    "Lavino di Sotto",
    "Calisese",
    "Castell\x27Arquato Canale",
    "Bentivoglio",
    "Ponte Felisio",
    "S. Bernardino",
    "Ponte Dolo",
    "Borgoforte",
    "Luretta",
    "Marzocchina",
    "Trebbia Valsigiara",
    "S. Donnino",
    "Casse Espansione Enza SIAP",
    "Bondeno Panaro",
    "Carignano Po",
    "Borgo Tossignano",
    "Accursi Idice",
    "Isola Pescaroli SIAP",
    "Ravone Via del Chiu",
    "Anzola Ghironda",
    "Ponte Locatello",
    "Villanova",
    "Coccolia",
    "Sasso Marconi",
    "Santarcangelo di Romagna",
    "Ponte degli Alpini",
    "Centonara",
    "Bevano Adriatica",
    "Castrocaro",
    "Codrignano",
    "S. Ilario d\x27Enza",
    "Salsomaggiore sul Ghiara",
    "Berceto Baganza",
    "Veggiola",
    "Vigolo Marchese",
    "Cesena",
    "Castelmaggiore",
    "Casei Gerola Po",
    "Suviana",
    "Invaso",
    "Brocchetti",
    "Bonconvento",
    "Cento",
    "Burana",
    "Savio",
    "Fornovo",
    "Ponte Uso",
    "S. Cesario SIAP",
    "Piacenza",
    "Rubiera casse monte",
    "Pianello Val Tidone idro",
    "Conca Diga",
    "Cavanella SIAP",
    "Ponte Bastia",
    "Spilamberto",
    "Ariano",
    "S. Maria Nova",
    "Gatta",
    "Boretto",
    "Marsaglia",
    "Gorzano",
    "Rimini SS16",
    "Lavino di Sopra",
    "Castell\x27Arquato",
    "Cotignola",
    "Parma Ponte Verdi",
    "Ca\x27 de Caroli",
    "Fiumalbo",
    "Rivalta RA",
    "Cedogno",
    "Ravone",
    "Castelbolognese",
    "Ponte Nibbiano Tidoncello",
    "Meldola",
    "Pizzocalvo",
    "Ponte Motta",
    "Quarto",
    "Ponteceno",
    "Noceto",
    "Gandazzolo Savena",
    "Crescentino Po",
    "Rubiera casse valle",
    "Monte Cerignone",
    "Impianto Forcelli Lavino",
    "Bondanello",
    "Firenzuola idro",
    "Ronco",
    "Rottofreno",
    "Ferriere Idro",
    "Bomporto",
    "Pradella",
    "Toccalmatto",
    "Langhirano idro",
    "Ponte Dattaro",
    "Marzolara",
    "Rubiera Tresinaro",
    "Massarolo",
    "Opera Po",
    "Concordia sulla Secchia",
    "Rubiera SS9",
    "Marradi",
    "Casalecchio chiusa",
    "Reda",
    "Cabanne",
    "Faenza",
    "Portonovo",
]

/-- List `KNOWN_STATIONS` after the module-level `KNOWN_STATIONS.sort()` in
`apis.py`: the same names in ascending lexicographic order. -/
def KNOWN_STATIONS : List String :=
  KNOWN_STATIONS_source.mergeSort (fun a b => decide (a ≤ b))

/-- Scan of the remaining choices keeping the best-scoring one seen so far
(a later choice replaces the current best only on a strictly larger score,
so the first maximal-scoring choice wins). -/
def extractOneAux (score : String → Nat) :
    List String → String × Nat → String × Nat
  | [], best => best
  | c :: cs, best =>
    extractOneAux score cs (if score c > best.2 then (c, score c) else best)

/-- Interface model of `thefuzz.process.extractOne(query, choices,
score_cutoff=cutoff)`, the external fuzzy-matching dependency used by
`tgbot.py`: scores every choice against the query with the library's
similarity scorer (0–100 scale, abstracted here as `score`), selects the
maximum, and returns it only when its score reaches `cutoff`, else `None`. -/
def extractOne (score : String → Nat) (choices : List String) (cutoff : Nat) :
    Option (String × Nat) :=
  match choices with
  | [] => none
  | c :: cs =>
    let best := extractOneAux score cs (c, score c)
    if best.2 ≥ cutoff then some best else none

/-- Source `fuzz_search_station` (`tgbot.py`): run `extractOne` over
`KNOWN_STATIONS` with `FUZZ_SCORE_CUTOFF`; on a match, look the matched name
up in the `Stazioni` table (`get_matching_station`, abstracted as `lookup`)
and return `(lookup result, matched name)`; on no match return `(None, "")`.
Parameterised by the library's similarity scorer `score`. -/
def fuzz_search_station (score : String → String → Nat)
    (lookup : String → Option Stazione) (station_name : String) :
    Option Stazione × String :=
  match extractOne (score station_name) KNOWN_STATIONS FUZZ_SCORE_CUTOFF with
  | some fuzzy_query => (lookup fuzzy_query.1, fuzzy_query.1)
  | none => (none, "")

/-! Bot message formatting (`apis.py`, `Stazione.create_station_message`). -/

/-- The displayed reading in the bot's reply: either the numeric value, or
the literal replacement text `"non disponibile"`. -/
inductive DisplayValue where
  | reading (v : ℚ)
  | nonDisponibile
deriving Repr, DecidableEq

/-- The alarm-colour chain from `create_station_message` (`apis.py`):
`alarm = "🔴"`, then `if value <= yellow: "🟢" elif value > yellow and
value <= orange: "🟡" elif value >= orange and value <= red: "🟠"`. -/
def alarmFor (value yellow orange red : ℚ) : String :=
  if value ≤ yellow then "🟢"
  else if value > yellow ∧ value ≤ orange then "🟡"
  else if value ≥ orange ∧ value ≤ red then "🟠"
  else "🔴"

/-- The value/alarm core of `Stazione.create_station_message` (`apis.py`):
the colour chain runs first, then `if value == UNKNOWN_VALUE` replaces the
displayed value with `"non disponibile"` and the alarm with `""`. The
timestamp formatting and the final string interpolation around these two
fields are not modelled. -/
def Stazione.message_value_and_alarm (s : Stazione) : DisplayValue × String :=
  let alarm := alarmFor s.value s.soglia1 s.soglia2 s.soglia3
  if s.value = UNKNOWN_VALUE then (DisplayValue.nonDisponibile, "")
  else (DisplayValue.reading s.value, alarm)

/-! Concrete inputs used to instantiate the theorems below. -/

/-- A stored station as first ingested (timestamp 500). -/
def C1stazOld : Stazione :=
  mkStazione 500 "id-old" 1 "Cesena" "12.24" "44.14" 1 2 3 (some 1)

/-- A refresh of the same station carrying a newer timestamp and fresh
values for every attribute. -/
def C1stazNew : Stazione :=
  mkStazione 1000 "id-new" 2 "Cesena" "12.25" "44.15" 4 5 6 (some 2)

/-- A table holding exactly the full record of `C1stazOld`. -/
def C1store : Store :=
  fun n => if n = "Cesena" then some C1stazOld.to_record else none

/-- The stored item under key `n` after a successful
`check_and_update_stazioni` call (`none` when the call raised). -/
def storedAfter (store : Store) (s : Stazione) (n : String) :
    Option StoredRecord :=
  match check_and_update_stazioni store s with
  | Except.ok store' => store' n
  | Except.error _ => none

/-- A station whose fetched time series will be empty. -/
def C2staz : Stazione :=
  mkStazione 900 "id-c2" 3 "Lugo" "11.91" "44.42" 1 2 3 (some 1)

/-- A stored station with timestamp 1000. -/
def C4stazOld : Stazione :=
  mkStazione 1000 "id-c4" 4 "Faenza" "11.88" "44.28" 1 2 3 (some 1)

/-- The same station carried with an older timestamp 999. -/
def C4stazNew : Stazione :=
  mkStazione 999 "id-c4" 4 "Faenza" "11.88" "44.28" 1 2 3 (some 2)

/-- A table holding exactly the full record of `C4stazOld`. -/
def C4store : Store :=
  fun n => if n = "Faenza" then some C4stazOld.to_record else none

/-- A station whose series fetch will fail. -/
def C5stazA : Stazione :=
  mkStazione 800 "id-a" 5 "Savio" "12.30" "44.30" 1 2 3 (some 1)

/-- A sibling station whose series fetch will succeed. -/
def C5stazB : Stazione :=
  mkStazione 800 "id-b" 6 "Ronco" "12.20" "44.20" 1 2 3 (some 1)

/-- The "Cesena" snapshot of the end-to-end scenario, before enrichment. -/
def C6staz : Stazione :=
  mkStazione 800 "id-c6" 7 "Cesena" "12.24" "44.14" 1 2 3 (some 1)

/-- A concrete similarity scorer: every query scores 95 against "Cesena"
and 10 against every other name. -/
def C7score : String → String → Nat :=
  fun _ c => if c = "Cesena" then 95 else 10

/-- A table lookup with an empty `Stazioni` table. -/
def C7lookup : String → Option Stazione := fun _ => none

/-- A station whose reading is the unknown sentinel; its thresholds would
classify `-9999` as green. -/
def C9staz : Stazione :=
  mkStazione 1000 "id-c9" 8 "Cesena" "12.24" "44.14" 1 2 3 (some UNKNOWN_VALUE)

/-!
Helper lemmas (shared, not tied to a single claim).
-/

lemma maxStep_t_left (x y : Valore) : x.t ≤ (maxStep x y).t := by
  unfold maxStep; split <;> omega

lemma maxStep_t_right (x y : Valore) : y.t ≤ (maxStep x y).t := by
  unfold maxStep; split <;> omega

lemma maxStep_eq_or (x y : Valore) : maxStep x y = x ∨ maxStep x y = y := by
  unfold maxStep; split
  · exact Or.inr rfl
  · exact Or.inl rfl

lemma foldl_maxStep_spec (xs : List Valore) : ∀ x : Valore,
    (xs.foldl maxStep x = x ∨ xs.foldl maxStep x ∈ xs) ∧
    x.t ≤ (xs.foldl maxStep x).t ∧
    ∀ y ∈ xs, y.t ≤ (xs.foldl maxStep x).t := by
  induction xs with
  | nil => exact fun x => ⟨Or.inl rfl, le_refl _, by simp⟩
  | cons y ys ih =>
    intro x
    obtain ⟨hmem, hle, hall⟩ := ih (maxStep x y)
    have hfold : (y :: ys).foldl maxStep x = ys.foldl maxStep (maxStep x y) := rfl
    refine ⟨?_, ?_, ?_⟩
    · rw [hfold]
      rcases hmem with h | h
      · rcases maxStep_eq_or x y with h2 | h2
        · exact Or.inl (h.trans h2)
        · exact Or.inr (by rw [h, h2]; exact List.mem_cons_self y ys)
      · exact Or.inr (List.mem_cons_of_mem y h)
    · rw [hfold]; exact (maxStep_t_left x y).trans hle
    · rw [hfold]
      intro z hz
      rcases List.mem_cons.mp hz with rfl | hz
      · exact (maxStep_t_right x z).trans hle
      · exact hall z hz

lemma pythonMaxByT_spec (dati : List Valore) (h : dati ≠ []) :
    ∃ m, pythonMaxByT dati = some m ∧ m ∈ dati ∧ ∀ y ∈ dati, y.t ≤ m.t := by
  cases dati with
  | nil => exact absurd rfl h
  | cons x xs =>
    obtain ⟨hmem, hle, hall⟩ := foldl_maxStep_spec xs x
    refine ⟨xs.foldl maxStep x, rfl, ?_, ?_⟩
    · rcases hmem with h2 | h2
      · rw [h2]; exact List.mem_cons_self x xs
      · exact List.mem_cons_of_mem x h2
    · intro y hy
      rcases List.mem_cons.mp hy with rfl | hy
      · exact hle
      · exact hall y hy

lemma extractOneAux_spec (score : String → Nat) (cs : List String) :
    ∀ best : String × Nat, best.2 = score best.1 →
      (extractOneAux score cs best).2 = score (extractOneAux score cs best).1 ∧
      (extractOneAux score cs best = best ∨
        (extractOneAux score cs best).1 ∈ cs) ∧
      best.2 ≤ (extractOneAux score cs best).2 ∧
      ∀ c ∈ cs, score c ≤ (extractOneAux score cs best).2 := by
  induction cs with
  | nil => exact fun best hb => ⟨hb, Or.inl rfl, le_refl _, by simp⟩
  | cons c cs ih =>
    intro best hb
    have hstep : extractOneAux score (c :: cs) best =
        extractOneAux score cs (if score c > best.2 then (c, score c) else best) := rfl
    by_cases hc : score c > best.2
    · obtain ⟨h1, h2, h3, h4⟩ := ih (c, score c) rfl
      rw [hstep, if_pos hc]
      refine ⟨h1, ?_, ?_, ?_⟩
      · rcases h2 with h | h
        · exact Or.inr (by rw [h]; exact List.mem_cons_self c cs)
        · exact Or.inr (List.mem_cons_of_mem c h)
      · exact le_of_lt (lt_of_lt_of_le hc h3)
      · intro d hd
        rcases List.mem_cons.mp hd with rfl | hd
        · exact h3
        · exact h4 d hd
    · obtain ⟨h1, h2, h3, h4⟩ := ih best hb
      rw [hstep, if_neg hc]
      refine ⟨h1, ?_, h3, ?_⟩
      · rcases h2 with h | h
        · exact Or.inl h
        · exact Or.inr (List.mem_cons_of_mem c h)
      · intro d hd
        rcases List.mem_cons.mp hd with rfl | hd
        · exact le_trans (le_of_not_lt hc) h3
        · exact h4 d hd

lemma extractOne_spec (score : String → Nat) (choices : List String)
    (cutoff : Nat) :
    (∃ name ∈ choices, cutoff ≤ score name ∧
        (∀ c ∈ choices, score c ≤ score name) ∧
        extractOne score choices cutoff = some (name, score name)) ∨
    ((∀ c ∈ choices, score c < cutoff) ∧
        extractOne score choices cutoff = none) := by
  cases choices with
  | nil => exact Or.inr ⟨by simp, rfl⟩
  | cons c cs =>
    obtain ⟨h1, h2, h3, h4⟩ := extractOneAux_spec score cs (c, score c) rfl
    have hmem : (extractOneAux score cs (c, score c)).1 ∈ c :: cs := by
      rcases h2 with h | h
      · rw [h]; exact List.mem_cons_self c cs
      · exact List.mem_cons_of_mem c h
    by_cases hcut : (extractOneAux score cs (c, score c)).2 ≥ cutoff
    · left
      refine ⟨(extractOneAux score cs (c, score c)).1, hmem, h1 ▸ hcut, ?_, ?_⟩
      · intro d hd
        rw [← h1]
        rcases List.mem_cons.mp hd with rfl | hd
        · exact h3
        · exact h4 d hd
      · show (if (extractOneAux score cs (c, score c)).2 ≥ cutoff then
            some (extractOneAux score cs (c, score c)) else none) = _
        rw [if_pos hcut]
        exact congrArg some (Prod.ext rfl h1)
    · right
      refine ⟨?_, ?_⟩
      · intro d hd
        have hlt := lt_of_not_ge hcut
        rcases List.mem_cons.mp hd with rfl | hd
        · exact lt_of_le_of_lt h3 hlt
        · exact lt_of_le_of_lt (h4 d hd) hlt
      · show (if (extractOneAux score cs (c, score c)).2 ≥ cutoff then
            some (extractOneAux score cs (c, score c)) else none) = none
        rw [if_neg hcut]

lemma runThrottle_all_zero (ts : List ℤ) : ∀ e : ThrottleEntry,
    e.count + ts.length ≤ THROTTLING_THRESHOLD + 1 →
    ∀ w ∈ (runThrottle (some e) ts).2, w = 0 := by
  induction ts with
  | nil => intro e _ w hw; simp [runThrottle] at hw
  | cons t rest ih =>
    intro e he w hw
    have hnot : ¬ e.count > THROTTLING_THRESHOLD := by
      simp only [THROTTLING_THRESHOLD] at he ⊢
      simp only [List.length_cons] at he
      omega
    simp only [runThrottle, check_throttled_user, hnot, if_false,
      List.mem_cons] at hw
    rcases hw with rfl | hw
    · rfl
    · refine ih ⟨e.count + 1, t + 60 * THROTTLING_TIME⟩ ?_ w hw
      simp only [List.length_cons] at he
      simpa using Nat.le_of_succ_le_succ (by omega)

/-!
Claim theorems.
-/

/-- C2: the claim says an empty fetched series leaves the station unchanged
and `enrich_data` completes without error. The code instead calls
`max(dati, key=...)` on the empty list, which raises `ValueError` and aborts
`enrich_data`: here the call on a batch holding one station with an empty
series evaluates to that error. -/
theorem C2_empty_series_raises :
    enrich_data [(C2staz, FetchOutcome.ok [])] =
      Except.error "ValueError: max() arg is an empty sequence" := rfl

/-- C4: for a station whose stored record exists with timestamp `T`, calling
`check_and_update_stazioni` with a station carrying timestamp `t ≤ T`
succeeds and returns the table completely unchanged. -/
theorem C4_upsert_noop_for_stale (store : Store) (s : Stazione)
    (rec : StoredRecord) (T : ℤ) (hrec : store s.nomestaz = some rec)
    (hT : rec.timestamp = some T) (hle : s.timestamp ≤ T) :
    check_and_update_stazioni store s = Except.ok store := by
  simp only [check_and_update_stazioni, hrec, hT]
  rw [if_neg (by omega)]

/-- C4 witness: a table holding "Faenza" at timestamp 1000 is untouched by an
upsert carrying timestamp 999. -/
theorem C4_witness :
    check_and_update_stazioni C4store C4stazNew = Except.ok C4store :=
  C4_upsert_noop_for_stale C4store C4stazNew C4stazOld.to_record 1000
    rfl rfl (by decide)

/-- C8: the dataclass constructor's `__post_init__` coalesces every falsy
`value` — constructing a `Stazione` with `value = 0.0` yields the unknown
sentinel `-9999.0`, identical to constructing it with `value = None`, so a
genuine zero reading is indistinguishable from an unknown one. -/
theorem C8_zero_reading_becomes_unknown (ts : ℤ) (ids : String) (ord : ℤ)
    (nome lon lat : String) (s1 s2 s3 : ℚ) :
    (mkStazione ts ids ord nome lon lat s1 s2 s3 (some 0)).value =
      UNKNOWN_VALUE ∧
    mkStazione ts ids ord nome lon lat s1 s2 s3 (some 0) =
      mkStazione ts ids ord nome lon lat s1 s2 s3 none := by
  constructor <;> simp [mkStazione, postInitValue]

/-- C9: when a station's value is the unknown sentinel `-9999.0`, the bot
message shows `"non disponibile"` with an empty alarm indicator, whatever
colour the threshold chain produced. -/
theorem C9_unknown_value_display (s : Stazione)
    (h : s.value = UNKNOWN_VALUE) :
    s.message_value_and_alarm = (DisplayValue.nonDisponibile, "") := by
  simp [Stazione.message_value_and_alarm, h]

/-- C9 witness: a station whose thresholds would classify `-9999` as green
(`-9999 ≤ 1`) still renders as `"non disponibile"` with no alarm. -/
theorem C9_witness :
    C9staz.value = UNKNOWN_VALUE ∧
    C9staz.message_value_and_alarm = (DisplayValue.nonDisponibile, "") :=
  ⟨by decide, C9_unknown_value_display C9staz (by decide)⟩

/-- C10: the chained `elif` colour classification is total — every value
receives exactly one of the four colours; a value equal to the orange
threshold lands in the earlier yellow branch (`value > yellow and
value <= orange`) when `yellow < orange`; and a value strictly above the red
threshold falls through to the default red when the thresholds ascend. -/
theorem C10_alarm_chain (v y o r : ℚ) :
    (alarmFor v y o r = "🟢" ∨ alarmFor v y o r = "🟡" ∨
      alarmFor v y o r = "🟠" ∨ alarmFor v y o r = "🔴") ∧
    (y < o → alarmFor o y o r = "🟡") ∧
    (y ≤ o → o ≤ r → r < v → alarmFor v y o r = "🔴") := by
  refine ⟨?_, ?_, ?_⟩
  · unfold alarmFor
    split_ifs <;> tauto
  · intro h
    unfold alarmFor
    rw [if_neg (by exact not_le.mpr h), if_pos ⟨h, le_refl o⟩]
  · intro h1 h2 h3
    unfold alarmFor
    rw [if_neg (by linarith), if_neg (by rintro ⟨-, h4⟩; linarith),
      if_neg (by rintro ⟨-, h4⟩; linarith)]

/-- C10 witness: with thresholds (1, 2, 3), the boundary value 2 (equal to
the orange threshold) is yellow, and the value 4 (above red) is red. -/
theorem C10_witness :
    alarmFor 2 1 2 3 = "🟡" ∧ alarmFor 4 1 2 3 = "🔴" :=
  ⟨(C10_alarm_chain 2 1 2 3).2.1 (by norm_num),
   (C10_alarm_chain 4 1 2 3).2.2 (by norm_num) (by norm_num) (by norm_num)⟩

/-- C6: for a non-empty fetched series, `enrich_data`'s per-station step
replaces the station's `value` and `timestamp` with the `v` and `t` of a
maximum-timestamp reading of the series; in particular, the series
`[(900, 1.0), (1000, 2.5)]` enriches a station to value `2.5` and timestamp
`1000`. -/
theorem C6_enrich_takes_latest_reading :
    (∀ (s : Stazione) (dati : List Valore), dati ≠ [] →
      ∃ m, pythonMaxByT dati = some m ∧ m ∈ dati ∧
        (∀ x ∈ dati, x.t ≤ m.t) ∧
        enrichStation s (FetchOutcome.ok dati) =
          Except.ok { s with value := m.v, timestamp := m.t }) ∧
    enrichStation C6staz (FetchOutcome.ok [⟨900, 1⟩, ⟨1000, 2.5⟩]) =
      Except.ok { C6staz with value := 2.5, timestamp := 1000 } := by
  constructor
  · intro s dati h
    obtain ⟨m, hm, hmem, hall⟩ := pythonMaxByT_spec dati h
    exact ⟨m, hm, hmem, hall, by simp [enrichStation, hm]⟩
  · rfl

/-- C6 witness: the general statement applied to the concrete station and
the concrete two-reading series. -/
theorem C6_witness :
    ∃ m, pythonMaxByT [⟨900, 1⟩, ⟨1000, 2.5⟩] = some m ∧
      m ∈ [(⟨900, 1⟩ : Valore), ⟨1000, 2.5⟩] ∧
      (∀ x ∈ [(⟨900, 1⟩ : Valore), ⟨1000, 2.5⟩], x.t ≤ m.t) ∧
      enrichStation C6staz (FetchOutcome.ok [⟨900, 1⟩, ⟨1000, 2.5⟩]) =
        Except.ok { C6staz with value := m.v, timestamp := m.t } :=
  C6_enrich_takes_latest_reading.1 C6staz [⟨900, 1⟩, ⟨1000, 2.5⟩] (by simp)

/-- C5: when every successful fetch in the batch carries a non-empty series,
`enrich_data` does not propagate individual fetch failures: it succeeds on
the whole batch, each station whose fetch failed keeps its prior snapshot
unchanged, and every station whose fetch succeeded is enriched with a
maximum-timestamp reading of its own series. -/
theorem C5_batch_tolerates_failures (pairs : List (Stazione × FetchOutcome))
    (h : ∀ p ∈ pairs, ∀ dati, p.2 = FetchOutcome.ok dati → dati ≠ []) :
    ∃ out, enrich_data pairs = Except.ok out ∧
      List.Forall₂ (fun p s' =>
        (p.2 = FetchOutcome.exc → s' = p.1) ∧
        (∀ dati, p.2 = FetchOutcome.ok dati →
          ∃ m, pythonMaxByT dati = some m ∧ (∀ x ∈ dati, x.t ≤ m.t) ∧
            s' = { p.1 with value := m.v, timestamp := m.t })) pairs out := by
  induction pairs with
  | nil => exact ⟨[], rfl, List.Forall₂.nil⟩
  | cons p rest ih =>
    obtain ⟨out, hout, hfa⟩ := ih (fun q hq => h q (List.mem_cons_of_mem p hq))
    obtain ⟨s, r⟩ := p
    cases r with
    | exc =>
      refine ⟨s :: out, ?_, List.Forall₂.cons ⟨fun _ => rfl, ?_⟩ hfa⟩
      · simp [enrich_data, enrichStation, hout]
      · exact fun dati hd => FetchOutcome.noConfusion hd
    | ok dati =>
      have hne : dati ≠ [] :=
        h (s, FetchOutcome.ok dati) (List.mem_cons_self _ _) dati rfl
      obtain ⟨m, hm, _, hall⟩ := pythonMaxByT_spec dati hne
      refine ⟨{ s with value := m.v, timestamp := m.t } :: out, ?_,
        List.Forall₂.cons ⟨fun habs => FetchOutcome.noConfusion habs, ?_⟩ hfa⟩
      · simp [enrich_data, enrichStation, hm, hout]
      · intro dati2 hd
        injection hd with h'
        subst h'
        exact ⟨m, hm, hall, rfl⟩

/-- C5 witness: a two-station batch where the first fetch failed and the
second succeeded with one reading. -/
theorem C5_witness :
    ∃ out, enrich_data [(C5stazA, FetchOutcome.exc),
        (C5stazB, FetchOutcome.ok [⟨1000, 3⟩])] = Except.ok out ∧
      List.Forall₂ (fun p s' =>
        (p.2 = FetchOutcome.exc → s' = p.1) ∧
        (∀ dati, p.2 = FetchOutcome.ok dati →
          ∃ m, pythonMaxByT dati = some m ∧ (∀ x ∈ dati, x.t ≤ m.t) ∧
            s' = { p.1 with value := m.v, timestamp := m.t }))
        [(C5stazA, FetchOutcome.exc), (C5stazB, FetchOutcome.ok [⟨1000, 3⟩])]
        out :=
  C5_batch_tolerates_failures _ (by
    intro p hp dati hd
    rcases List.mem_cons.mp hp with rfl | hp2
    · exact absurd hd (by simp)
    · rcases List.mem_singleton.mp hp2 with rfl
      injection hd with h'
      subst h'
      simp)

/-- C1 counterexample: with "Cesena" stored at timestamp 500 and an upsert
carrying timestamp 1000 and fresh values for every attribute, the stored
item after the call is not the full new record — its `idstazione` attribute
still holds the old value, so the write was partial, refuting the claim as
stated. -/
theorem C1_counterexample :
    storedAfter C1store C1stazNew "Cesena" ≠ some C1stazNew.to_record ∧
    (storedAfter C1store C1stazNew "Cesena").bind
      (fun rec => rec.idstazione) = some "id-old" := by
  constructor
  · decide
  · decide

/-- C1 amended: when the stored record for the station's name is absent
(with a positive incoming timestamp) or stored with a strictly older
timestamp, `check_and_update_stazioni` succeeds, leaves every other key
untouched, and writes only the `timestamp` and `value` attributes of the
station's record; all other attributes keep their previous stored values
(absent when no record existed). -/
theorem C1_newer_write_touches_two_attrs (store : Store) (s : Stazione)
    (h1 : ∀ rec, store s.nomestaz = some rec →
      ∃ T, rec.timestamp = some T ∧ T < s.timestamp)
    (h2 : store s.nomestaz = none → 0 < s.timestamp) :
    ∃ store', check_and_update_stazioni store s = Except.ok store' ∧
      (∀ n, n ≠ s.nomestaz → store' n = store n) ∧
      ∃ rec', store' s.nomestaz = some rec' ∧
        rec'.timestamp = some s.timestamp ∧
        rec'.value = some s.value ∧
        rec'.idstazione = (store s.nomestaz).bind (fun r => r.idstazione) ∧
        rec'.ordinamento = (store s.nomestaz).bind (fun r => r.ordinamento) ∧
        rec'.lon = (store s.nomestaz).bind (fun r => r.lon) ∧
        rec'.lat = (store s.nomestaz).bind (fun r => r.lat) ∧
        rec'.soglia1 = (store s.nomestaz).bind (fun r => r.soglia1) ∧
        rec'.soglia2 = (store s.nomestaz).bind (fun r => r.soglia2) ∧
        rec'.soglia3 = (store s.nomestaz).bind (fun r => r.soglia3) := by
  cases hstore : store s.nomestaz with
  | some rec =>
    obtain ⟨T, hT, hlt⟩ := h1 rec hstore
    refine ⟨fun n => if n = s.nomestaz then
        some { rec with timestamp := some s.timestamp,
                        value := some s.value }
      else store n, ?_, ?_, ?_⟩
    · simp only [check_and_update_stazioni, hstore, hT]
      rw [if_pos (by omega)]
    · intro n hn
      simp [hn]
    · exact ⟨{ rec with
                 timestamp := some s.timestamp,
                 value := some s.value },
        by simp, rfl, rfl, by simp [hstore], by simp [hstore],
        by simp [hstore], by simp [hstore], by simp [hstore],
        by simp [hstore], by simp [hstore]⟩
  | none =>
    have hpos := h2 hstore
    refine ⟨fun n => if n = s.nomestaz then
        some { timestamp := some s.timestamp, idstazione := none,
               ordinamento := none, lon := none, lat := none,
               soglia1 := none, soglia2 := none, soglia3 := none,
               value := some s.value }
      else store n, ?_, ?_, ?_⟩
    · simp only [check_and_update_stazioni, hstore]
      rw [if_pos (by omega)]
    · intro n hn
      simp [hn]
    · exact ⟨{ timestamp := some s.timestamp,
                 idstazione := none,
                 ordinamento := none, lon := none, lat := none,
                 soglia1 := none, soglia2 := none, soglia3 := none,
                 value := some s.value },
        by simp, rfl, rfl, by simp [hstore], by simp [hstore],
        by simp [hstore], by simp [hstore], by simp [hstore],
        by simp [hstore], by simp [hstore]⟩

/-- C1 witness: the amended statement applied to the concrete table holding
"Cesena" at timestamp 500 and the refresh at timestamp 1000. -/
theorem C1_witness :
    ∃ store', check_and_update_stazioni C1store C1stazNew =
        Except.ok store' ∧
      (∀ n, n ≠ C1stazNew.nomestaz → store' n = C1store n) ∧
      ∃ rec', store' C1stazNew.nomestaz = some rec' ∧
        rec'.timestamp = some C1stazNew.timestamp ∧
        rec'.value = some C1stazNew.value ∧
        rec'.idstazione =
          (C1store C1stazNew.nomestaz).bind (fun r => r.idstazione) ∧
        rec'.ordinamento =
          (C1store C1stazNew.nomestaz).bind (fun r => r.ordinamento) ∧
        rec'.lon = (C1store C1stazNew.nomestaz).bind (fun r => r.lon) ∧
        rec'.lat = (C1store C1stazNew.nomestaz).bind (fun r => r.lat) ∧
        rec'.soglia1 =
          (C1store C1stazNew.nomestaz).bind (fun r => r.soglia1) ∧
        rec'.soglia2 =
          (C1store C1stazNew.nomestaz).bind (fun r => r.soglia2) ∧
        rec'.soglia3 =
          (C1store C1stazNew.nomestaz).bind (fun r => r.soglia3) :=
  C1_newer_write_touches_two_attrs C1store C1stazNew
    (by
      intro rec hrec
      have h : C1store C1stazNew.nomestaz = some C1stazOld.to_record := rfl
      rw [h] at hrec
      injection hrec with h'
      rw [← h']
      exact ⟨500, rfl, by decide⟩)
    (fun _ => by decide)

/-- C3 counterexample: a fresh identity making 6 calls in quick succession
(all at time 0, well inside the cool-down window) receives wait time 0 on
every call — in particular the 6th call returns 0, not a strictly positive
wait, refuting the claim as stated. -/
theorem C3_counterexample :
    (runThrottle none [0, 0, 0, 0, 0, 0]).2 = [0, 0, 0, 0, 0, 0] ∧
    (runThrottle none [0, 0, 0, 0, 0, 0]).2.getD 5 1 = 0 := by
  constructor
  · decide
  · decide

/-- C3 amended: the guard reads the stored count before this call's
increment (`count > THROTTLING_THRESHOLD`), so a fresh identity's first
`THROTTLING_THRESHOLD + 1 = 6` calls all return wait 0 — regardless of their
times — and its 7th call, made within the cool-down window opened by the
6th, is the first to return a wait, which is strictly positive and equals
the remaining cool-down of the window set by the 6th call. -/
theorem C3_seventh_call_throttled :
    (∀ ts : List ℤ, ts.length ≤ THROTTLING_THRESHOLD + 1 →
      ∀ w ∈ (runThrottle none ts).2, w = 0) ∧
    (∀ t1 t2 t3 t4 t5 t6 t7 : ℤ, t7 < t6 + 60 * THROTTLING_TIME →
      (runThrottle none [t1, t2, t3, t4, t5, t6, t7]).2 =
        [0, 0, 0, 0, 0, 0, t6 + 60 * THROTTLING_TIME - t7] ∧
      0 < t6 + 60 * THROTTLING_TIME - t7) := by
  constructor
  · intro ts hlen w hw
    cases ts with
    | nil => simp [runThrottle] at hw
    | cons t rest =>
      simp only [runThrottle, check_throttled_user, List.mem_cons] at hw
      rcases hw with rfl | hw
      · rfl
      · refine runThrottle_all_zero rest ⟨1, t + 60 * THROTTLING_TIME⟩
          ?_ w hw
        show 1 + rest.length ≤ THROTTLING_THRESHOLD + 1
        simp only [List.length_cons] at hlen
        omega
  · intro t1 t2 t3 t4 t5 t6 t7 h
    refine ⟨?_, ?_⟩
    · simp only [runThrottle, check_throttled_user, THROTTLING_THRESHOLD]
      norm_num
    · simp only [THROTTLING_TIME] at h ⊢
      omega

/-- C3 witness: the amended statement at concrete times — six calls at time
0 and a 7th call 5 seconds later returns the remaining 895 seconds of the
15-minute cool-down. -/
theorem C3_witness :
    (runThrottle none [0, 0, 0, 0, 0, 0, 5]).2 =
      [0, 0, 0, 0, 0, 0, 0 + 60 * THROTTLING_TIME - 5] ∧
    (0 : ℤ) < 0 + 60 * THROTTLING_TIME - 5 :=
  C3_seventh_call_throttled.2 0 0 0 0 0 0 5 (by decide)

/-- C7: for every similarity scorer, station-table lookup and input text,
`fuzz_search_station` either returns the first maximum-scoring known station
name, whose score against the input meets the cutoff `80`, together with the
table lookup of that name, or — when no known name reaches the cutoff — the
explicit empty result `(none, "")`, never a default station. -/
theorem C7_fuzzy_cutoff (score : String → String → Nat)
    (lookup : String → Option Stazione) (query : String) :
    (∃ name ∈ KNOWN_STATIONS, FUZZ_SCORE_CUTOFF ≤ score query name ∧
        (∀ c ∈ KNOWN_STATIONS, score query c ≤ score query name) ∧
        fuzz_search_station score lookup query = (lookup name, name)) ∨
    ((∀ c ∈ KNOWN_STATIONS, score query c < FUZZ_SCORE_CUTOFF) ∧
        fuzz_search_station score lookup query = (none, "")) := by
  rcases extractOne_spec (score query) KNOWN_STATIONS FUZZ_SCORE_CUTOFF with
    ⟨name, hmem, hcut, hmax, heq⟩ | ⟨hall, heq⟩
  · exact Or.inl ⟨name, hmem, hcut, hmax, by
      unfold fuzz_search_station
      rw [heq]⟩
  · exact Or.inr ⟨hall, by
      unfold fuzz_search_station
      rw [heq]⟩

/-- C7 witness: with a scorer that gives 95 to "Cesena" and 10 to every
other name, and an empty table, the resolver is pinned by the theorem —
either branch is fully concrete. -/
theorem C7_witness :
    (∃ name ∈ KNOWN_STATIONS, FUZZ_SCORE_CUTOFF ≤ C7score "cesna" name ∧
        (∀ c ∈ KNOWN_STATIONS, C7score "cesna" c ≤ C7score "cesna" name) ∧
        fuzz_search_station C7score C7lookup "cesna" = (C7lookup name, name)) ∨
    ((∀ c ∈ KNOWN_STATIONS, C7score "cesna" c < FUZZ_SCORE_CUTOFF) ∧
        fuzz_search_station C7score C7lookup "cesna" = (none, "")) :=
  C7_fuzzy_cutoff C7score C7lookup "cesna"

end Erfiume
